import Mathlib

/-!
Shallow embedding of the pynvm pmemobj object layer.

The definitions below are translated from `src/nvm/pmemobj/list.py` and
`src/nvm/pmemobj/pool.py`.  Machine words are modelled as `Nat` (all the
quantities involved are small and non-negative; no claim depends on
overflow), OIDs as `Nat` with `0` standing for `OID_NULL`, fallible
operations as `Except`, and the external libpmemobj primitives by the
contract stated in the specification (sections 4.1 and 4.4).
-/

namespace Pmemobj

/-! ## Persistent list body (list.py)

A `PListObject` body consists of the variable-size header field `ob_size`,
the capacity field `allocated`, and the pointer `ob_items` to a separately
allocated OID array.  For the body-level claims only the nullness of
`ob_items` matters, so it is modelled as a `Bool`. -/

/-- Body fields of a persistent list: `ob_size`, `allocated`, and whether
`ob_items` equals `OID_NULL`. -/
structure PListBody where
  size : Nat
  allocated : Nat
  itemsNull : Bool
  deriving DecidableEq, Repr

/-- Overallocation of `PersistentList._resize` (list.py lines 71-73):
`new_allocated = (newsize >> 3) + (3 if newsize < 9 else 6) + newsize`,
overridden to `0` when `newsize == 0`. -/
def newAllocated (newsize : Nat) : Nat :=
  let na := (newsize >>> 3) + (if newsize < 9 then 3 else 6) + newsize
  if newsize = 0 then 0 else na

/-- State effect of `PersistentList._resize` (list.py lines 58-86) on the
list body, paired with whether the items array was reallocated.  The fast
path (line 62: `allocated >= newsize and newsize >= allocated >> 1`) only
writes `ob_size`.  On the slow path `ob_items` is obtained from `malloc`
when it was NULL and from `realloc` otherwise; by the allocator model
below both return `OID_NULL` exactly when the requested byte size
`new_allocated * sizeof(PObjPtr)` is zero, i.e. when `new_allocated = 0`. -/
def listResize (b : PListBody) (newsize : Nat) : PListBody × Bool :=
  if b.allocated ≥ newsize ∧ newsize ≥ b.allocated >>> 1 then
    ({ b with size := newsize }, false)
  else
    let na := newAllocated newsize
    ({ size := newsize, allocated := na, itemsNull := na = 0 }, true)

/-- Body-level invariant of spec section 3 (invariant 5): `size <= allocated`
and `items == OID_NULL` iff `allocated == 0`. -/
def PListBody.inv (b : PListBody) : Prop :=
  b.size ≤ b.allocated ∧ (b.itemsNull = true ↔ b.allocated = 0)

/-- Body produced by `PersistentList.__init__` for a fresh list (list.py
lines 24-28): the `PListObject` allocation is zero-filled by `tx_zalloc`,
so `ob_size = 0`, `allocated = 0` and `ob_items = OID_NULL`. -/
def newListBody : PListBody := ⟨0, 0, true⟩

/-- Body effect of `PersistentList.insert` (list.py line 93): resize to
`size + 1`; the subsequent slot writes touch only the items array. -/
def insertBody (b : PListBody) : PListBody := (listResize b (b.size + 1)).1

/-- Body effect of `PersistentList.__setitem__` (list.py lines 122-132):
no body field changes, only an items-array slot is rewritten. -/
def setBody (b : PListBody) : PListBody := b

/-- Body effect of `PersistentList.__delitem__` (list.py lines 134-146):
shift the suffix left, then resize to `size - 1`. -/
def delBody (b : PListBody) : PListBody := (listResize b (b.size - 1)).1

/-- Body effect of `PersistentList.append` (provided by the MutableSequence
ABC as `insert(len(self), v)`): identical to an insert. -/
def appendBody (b : PListBody) : PListBody := insertBody b

/-- Body effect of `PersistentList.clear` (list.py lines 178-191): return
immediately when `size == 0`, otherwise null the slots and resize to 0. -/
def clearBody (b : PListBody) : PListBody :=
  if b.size = 0 then b else (listResize b 0).1

/-! ## Persistent list contents (list.py)

Element-level model of the list operations: the sequence of OIDs (or of the
values they stand for) stored in the first `ob_size` slots of the items
array, as a Lean `List`. -/

/-- Contents effect of `PersistentList.insert` (list.py lines 88-107):
after growing by one, a negative index is shifted by the old size and
clamped below at 0 (lines 94-97), an index above the old size is clamped to
it (lines 98-99); the slots from the clamped index on are shifted one to
the right and the new value is written at the clamped index
(lines 103-107), which on the array realizes take/cons/drop. -/
def clampInsertIndex (i : Int) (size : Int) : Int :=
  let i1 := if i < 0 then i + size else i
  let i2 := if i1 < 0 then 0 else i1
  if i2 > size then size else i2

/-- Contents effect of `PersistentList.insert`, continued: clamp the
index, then shift and write. -/
def listInsert {α : Type} (l : List α) (i : Int) (v : α) : List α :=
  let j := clampInsertIndex i l.length
  l.take j.toNat ++ v :: l.drop j.toNat

/-- Index normalization of `PersistentList._normalize_index` (list.py
lines 109-120): a negative index counts from the end; when the adjusted
index is out of range, `IndexError(index)` carrying the adjusted index is
raised. -/
def normalizeIndex (size : Nat) (i : Int) : Except Int Nat :=
  let i1 := if i < 0 then i + size else i
  if i1 < 0 ∨ i1 ≥ size then Except.error i1 else Except.ok i1.toNat

/-- Contents effect of `PersistentList.__getitem__` (list.py lines
148-151): normalize the index, then read slot `items[index]`.  The
operation performs no write, so the list itself is unchanged (the model
consumes `l` read-only). -/
def listGet {α : Type} (l : List α) (i : Int) : Except Int (Option α) :=
  match normalizeIndex l.length i with
  | Except.error e => Except.error e
  | Except.ok j => Except.ok (l.get? j)

/-- Insertion sequence of scenario S3 of the specification, starting from
an empty list. -/
def s3List : List String :=
  listInsert (listInsert (listInsert (listInsert
    (listInsert ([] : List String) 0 "b") (-1) "a") 2 "c") (-10) "z") 10 "y"

/-! ## Allocation interface (pool.py, MemoryManager)

State of the external transactional allocator, modelled by the contract of
spec section 4.1: `pmemobj_tx_zalloc` and `pmemobj_tx_zrealloc` return a
fresh non-null OID on success and fail otherwise, `pmemobj_tx_free`
releases an allocation.  OIDs are `Nat`, with `0` for `OID_NULL`; the
`ok` argument stands for whether the underlying allocation succeeds
(it fails on out-of-memory). -/

/-- State of the underlying allocator: the last offset handed out (fresh
offsets are strictly positive, so they are never `OID_NULL`) and the set of
live allocations. -/
structure AllocState where
  next : Nat
  live : List Nat
  deriving DecidableEq, Repr

/-- Contract model of `pmemobj_tx_zalloc`: on success return a fresh
non-null zero-filled allocation, on failure return none (the library sets
its errno). -/
def txZalloc (s : AllocState) (ok : Bool) : Option (AllocState × Nat) :=
  if ok then some ({ next := s.next + 1, live := (s.next + 1) :: s.live }, s.next + 1)
  else none

/-- Contract model of `pmemobj_tx_free`: release the allocation.  The
caller `MemoryManager.free` (pool.py lines 381-386) also purges the OID
from the object cache, which has no effect on the allocator state. -/
def allocFree (s : AllocState) (oid : Nat) : AllocState :=
  { s with live := s.live.erase oid }

/-- Contract model of `pmemobj_tx_zrealloc`: on success the contents move
to an allocation of the new size, reported by a non-null OID. -/
def txZrealloc (s : AllocState) (ok : Bool) (oid : Nat) : Option (AllocState × Nat) :=
  if ok then
    some ({ next := s.next + 1, live := (s.next + 1) :: (s.live.erase oid) }, s.next + 1)
  else none

/-- Translation of `MemoryManager.malloc` (pool.py lines 348-361): a size
of zero short-circuits to `OID_NULL` without touching the allocator;
otherwise `tx_zalloc` is called and a null result raises per errno. -/
def mmMalloc (s : AllocState) (ok : Bool) (size : Nat) : Except Unit (AllocState × Nat) :=
  if size = 0 then Except.ok (s, 0)
  else
    match txZalloc s ok with
    | some r => Except.ok r
    | none => Except.error ()

/-- Translation of `MemoryManager.realloc` (pool.py lines 363-379): a size
of zero frees `oid` and returns `OID_NULL`; otherwise `tx_zrealloc` is
called and a null result raises per errno. -/
def mmRealloc (s : AllocState) (ok : Bool) (oid : Nat) (size : Nat) :
    Except Unit (AllocState × Nat) :=
  if size = 0 then Except.ok (allocFree s oid, 0)
  else
    match txZrealloc s ok oid with
    | some r => Except.ok r
    | none => Except.error ()

/-! ## Reference counts and the slot-update discipline (pool.py, list.py)

Model for the refcount claims: the heap maps each OID to the refcount in
its object header, `none` meaning unallocated or freed.  The values
involved in claim C1 are immutables (no `_deallocate` hook), so
`MemoryManager._deallocate` (pool.py lines 589-599) reduces to freeing the
allocation and purging the caches. -/

/-- Pointwise update of a function-represented heap. -/
def hupd {β : Type} (h : Nat → Option β) (k : Nat) (v : Option β) : Nat → Option β :=
  fun x => if x = k then v else h x

/-- Refcount heap: OID to refcount, `none` when not allocated. -/
def RcHeap : Type := Nat → Option Nat

/-- Translation of `MemoryManager.incref` (pool.py lines 557-568): a no-op
on `OID_NULL`, otherwise the refcount word is snapshotted and incremented.
On a freed OID the write lands in released memory; the allocation stays
dead, which the model renders by keeping `none`. -/
def rcIncref (h : RcHeap) (oid : Nat) : RcHeap :=
  if oid = 0 then h
  else
    match h oid with
    | none => h
    | some rc => hupd h oid (some (rc + 1))

/-- Translation of `MemoryManager.decref` (pool.py lines 570-582): the
refcount is decremented and, when it reaches zero, `_deallocate` frees the
allocation (the immutable case: no release hook). -/
def rcDecref (h : RcHeap) (oid : Nat) : RcHeap :=
  match h oid with
  | none => h
  | some rc => if rc ≤ 1 then hupd h oid none else hupd h oid (some (rc - 1))

/-- Translation of `MemoryManager.xdecref` (pool.py lines 584-587). -/
def rcXdecref (h : RcHeap) (oid : Nat) : RcHeap :=
  if oid = 0 then h else rcDecref h oid

/-- State for `PersistentList.__setitem__`: the refcount heap and the OID
slots of the items array. -/
structure SetState where
  heap : RcHeap
  slots : List Nat

/-- Translation of the mutation sequence of `PersistentList.__setitem__`
(list.py lines 122-132) after index normalization, with `voide` the OID
returned by `mm.persist(value)` (line 127): snapshot the slot, `xdecref`
the old slot (line 130), write the new OID (line 131), `incref` it
(line 132). -/
def setItem (s : SetState) (j : Nat) (voide : Nat) : SetState :=
  let old := s.slots.getD j 0
  let h1 := rcXdecref s.heap old
  let slots2 := s.slots.set j voide
  { heap := rcIncref h1 voide, slots := slots2 }

/-- State for the pool root setter: the refcount heap and the
`root_object` slot of the persistent root record. -/
structure RootState where
  heap : RcHeap
  rootObj : Nat

/-- Translation of the `PersistentObjectPool.root` setter (pool.py lines
735-745), with `voide` the OID returned by `mm.persist(value)`: snapshot
the root slot, `xdecref` the old root OID, write the new OID, `incref`
it. -/
def rootSet (s : RootState) (voide : Nat) : RootState :=
  let h1 := rcXdecref s.heap s.rootObj
  { heap := rcIncref h1 voide, rootObj := voide }

/-- Heap of the C1 scenario: one allocation at OID 1 whose refcount is 1
(its only reference is the slot about to be overwritten). -/
def c1Heap : RcHeap := fun x => if x = 1 then some 1 else none

/-! ## Pool open and the type-table slot (pool.py, PersistentObjectPool)

Model of `PersistentObjectPool.__init__` (pool.py lines 634-689), reduced
to the flag dispatch and the type-table step.  The external pool
open/create is assumed to succeed whenever the file-existence precondition
of the flag holds (spec section 4.1 contract); for a freshly created file
the root record is zero-filled by the library, so its type-table slot
is `OID_NULL`. -/

/-- Open flags accepted by the pool constructor. -/
inductive OpenFlag
  | wflag
  | xflag
  | cflag
  | rflag
  deriving DecidableEq, Repr

/-- Failures of the pool constructor. -/
inductive PoolErr
  | libOpenFail
  | libCreateFail
  | invalidFlag
  deriving DecidableEq, Repr

/-- Outcome of pool initialization: the OID stored in the root record's
type-table slot afterwards, and whether a fresh type table was created by
this call. -/
structure PoolInitResult where
  typeTable : Nat
  createdTable : Bool
  deriving DecidableEq, Repr

/-- Translation of the type-table step of the constructor (pool.py lines
674-684): when the slot read from the root record is `OID_NULL`, create a
fresh type table inside a transaction and store it in the slot; otherwise
resurrect the existing table.  `fresh` is the OID the new table is
allocated at. -/
def initTypeTable (slot : Nat) (fresh : Nat) : Except PoolErr PoolInitResult :=
  if slot = 0 then Except.ok ⟨fresh, true⟩ else Except.ok ⟨slot, false⟩

/-- Translation of the flag dispatch of the constructor (pool.py lines
659-673) followed by the type-table step.  `exis` is whether the file
exists, `slot` the type-table OID found in the root record (0 for a
fresh file). -/
def poolInit (flag : OpenFlag) (exis : Bool) (slot : Nat) (fresh : Nat) :
    Except PoolErr PoolInitResult :=
  match flag with
  | OpenFlag.wflag => if exis then initTypeTable slot fresh else Except.error PoolErr.libOpenFail
  | OpenFlag.xflag => if exis then Except.error PoolErr.libCreateFail else initTypeTable 0 fresh
  | OpenFlag.cflag => if exis then initTypeTable slot fresh else initTypeTable 0 fresh
  | OpenFlag.rflag => Except.error PoolErr.invalidFlag

/-! ## Resurrection dispatch (pool.py, MemoryManager.resurrect)

Model of the branch structure of `MemoryManager.resurrect` (pool.py lines
471-503) for an OID that is not in the object cache: dispatch on the
header's type code, resolve the class string, and pick the registered
resurrect routine or the user-persistent-class branch. -/

/-- Results of resurrection, by branch taken: the hardwired persistent-list
branch (type code 0), a registered `_resurrect_*` routine applied to the
object body, or an instance of a user persistent class constructed as
`cls(__manager__=mm, _oid=oid)`. -/
inductive ResObj
  | plist (oid : Nat)
  | viaRoutine (clsStr : String) (oid : Nat)
  | userInstance (clsStr : String) (oid : Nat)
  deriving DecidableEq, Repr

/-- Errors raised by resurrection. -/
inductive ResErr
  | nameErr
  | indexErr
  deriving DecidableEq, Repr

/-- Attribute-name mangling of pool.py line 491: the class string with
every colon replaced by an underscore (a single-character replace is a
character map). -/
def mangleClsStr (s : String) : String :=
  String.mk (s.data.map (fun c => if c = ':' then '_' else c))

/-- Translation of the `hasattr(self, resurrector)` test (pool.py line
492): `MemoryManager` defines exactly the methods
`_resurrect_type_table`, `_resurrect_builtins_str`,
`_resurrect_builtins_float` and `_resurrect_builtins_int` whose names start
with the prefix used to build `resurrector`. -/
def hasResurrector (clsStr : String) : Bool :=
  let m := mangleClsStr clsStr
  m = "type_table" || m = "builtins_str" || m = "builtins_float" || m = "builtins_int"

/-- Translation of `MemoryManager.resurrect` (pool.py lines 471-503) for a
cache miss, given the type table (list of class strings) and the header's
type code.  Type code 0 is the hardwired `PersistentList` branch; type
code 1 resolves to the string class; any other code indexes the type
table.  When no `_resurrect_*` routine exists for the class string, line
494 executes the expression `find_class_from_string(cls_str)`: the module
defines `_find_class_from_string` (pool.py line 117) but no binding named
`find_class_from_string`, so this statement raises `NameError`. -/
def resurrect (typeTable : List String) (typeCode : Nat) (oid : Nat) :
    Except ResErr ResObj :=
  if typeCode = 0 then Except.ok (ResObj.plist oid)
  else
    match (if typeCode = 1 then some ("builtins:str") else typeTable.get? typeCode) with
    | none => Except.error ResErr.indexErr
    | some clsStr =>
      if hasResurrector clsStr then Except.ok (ResObj.viaRoutine clsStr oid)
      else Except.error ResErr.nameErr

/-- Modelled from the spec: the behaviour of the user-persistent-class
branch of `resurrect` that the specification describes (spec section 4.6:
"otherwise, treat as a user persistent class and construct it from the
OID"), i.e. the dispatch with line 494 calling the class lookup helper
that does exist.  Written only for comparison with `resurrect` above. -/
def resurrectSpec (typeTable : List String) (typeCode : Nat) (oid : Nat) :
    Except ResErr ResObj :=
  if typeCode = 0 then Except.ok (ResObj.plist oid)
  else
    match (if typeCode = 1 then some ("builtins:str") else typeTable.get? typeCode) with
    | none => Except.error ResErr.indexErr
    | some clsStr =>
      if hasResurrector clsStr then Except.ok (ResObj.viaRoutine clsStr oid)
      else Except.ok (ResObj.userInstance clsStr oid)

/-! ## Transaction stack and object-cache staging (pool.py, _Transaction)

The underlying libpmemobj transaction machinery is modelled from the
contract of spec sections 4.1 and 4.4 over an abstract persistent state
`σ`: the undo log is rendered by remembering, at the outermost `tx_begin`,
the persistent state to restore on abort (spec invariant 8 guarantees that
every mutation snapshots its range first, so an abort restores all of it).
The `_Transaction` context manager itself (pool.py lines 242-316) is
translated statement by statement. -/

/-- Stage of the underlying transaction, as reported by
`pmemobj_tx_stage`. -/
inductive TxStage
  | idle
  | work
  | committed
  | aborted
  deriving DecidableEq, Repr

/-- Contract model of the libpmemobj per-thread transaction state:
the persistent state, the state saved at the outermost `tx_begin`, the
nesting depth, the stage, and the errno that pending `tx_end` calls will
report after an abort. -/
structure LibTx (σ : Type) where
  pmem : σ
  base : Option σ
  depth : Nat
  stage : TxStage
  pendingErr : Nat

/-- Contract model of `pmemobj_tx_begin`. -/
def txBegin {σ : Type} (s : LibTx σ) : LibTx σ :=
  { s with depth := s.depth + 1, stage := TxStage.work,
           base := if s.depth = 0 then some s.pmem else s.base }

/-- Contract model of `pmemobj_tx_commit`. -/
def txCommitLib {σ : Type} (s : LibTx σ) : LibTx σ :=
  { s with stage := TxStage.committed }

/-- Contract model of `pmemobj_tx_abort`: the undo log rolls the
snapshotted ranges back to the state at the outermost `tx_begin`, and the
chosen errno is reported by the subsequent `tx_end` calls. -/
def txAbortLib {σ : Type} (s : LibTx σ) (err : Nat) : LibTx σ :=
  { s with pmem := s.base.getD s.pmem, stage := TxStage.aborted, pendingErr := err }

/-- Contract model of `pmemobj_tx_end`: pop one nesting level and report
the pending errno (0 after a commit). -/
def txEnd {σ : Type} (s : LibTx σ) : Nat × LibTx σ :=
  let d := s.depth - 1
  (s.pendingErr,
   { s with depth := d,
            stage := if d = 0 then TxStage.idle
                     else if s.stage = TxStage.aborted then TxStage.aborted
                     else TxStage.work,
            base := if d = 0 then none else s.base,
            pendingErr := if d = 0 then 0 else s.pendingErr })

/-- Fields of `_ObjCache` (pool.py lines 151-239) touched by the
transaction machinery: the committed maps and the staged (transaction)
maps, in both directions, as association lists whose first binding wins —
prepending a list therefore acts like a Python dict update in which the
prepended entries take precedence. -/
structure ObjCache where
  res : List (Nat × Nat)
  per : List (Nat × Nat)
  transRes : List (Nat × Nat)
  transPer : List (Nat × Nat)

/-- Translation of `_ObjCache.clear_transaction_cache` (pool.py lines
176-179). -/
def clearTransactionCache (c : ObjCache) : ObjCache :=
  { c with transRes := [], transPer := [] }

/-- Translation of `_ObjCache.commit_transaction_cache` (pool.py lines
220-225): `dict.update` with the staged entries, then clear the staged
maps. -/
def commitTransactionCache (c : ObjCache) : ObjCache :=
  { res := c.transRes ++ c.res, per := c.transPer ++ c.per,
    transRes := [], transPer := [] }

/-- The sentinel errno marking an abort caused by an unhandled host
exception (pool.py line 27). -/
def internalAbortErrno : Nat := 99999

/-- Combined state of `_Transaction`: the library transaction, the frame
stack `_trans_stack` (with `true` for a `_CONTEXT` frame and `false` for a
`_FREE` frame), and the object cache. -/
structure TxCtx (σ : Type) where
  lib : LibTx σ
  stack : List Bool
  cache : ObjCache

/-- Failures of `_Transaction.__exit__`. -/
inductive ExitErr
  | nonContextOpen
  | libError (errno : Nat)
  deriving DecidableEq, Repr

/-- Translation of `_Transaction.__enter__` (pool.py lines 286-290): push
a `_CONTEXT` frame and begin a library transaction. -/
def txEnter {σ : Type} (s : TxCtx σ) : TxCtx σ :=
  { s with stack := true :: s.stack, lib := txBegin s.lib }

/-- Translation of `_Transaction.__exit__` (pool.py lines 292-316), with
`exc` recording whether the context is exiting on an exception.  A popped
`_FREE` frame means an explicit `begin` was left open: the code unwinds
the matching library transactions and raises RuntimeError (both that path
and a pop from an empty stack are rendered as `nonContextOpen`).
Otherwise, while the stage is `WORK`, a normal exit commits and an
exceptional exit aborts with the sentinel errno; a nonzero result of
`tx_end` clears the staged cache entries and, unless it is the sentinel,
raises per errno; a zero result with an empty remaining stack promotes the
staged cache entries. -/
def txExit {σ : Type} (exc : Bool) (s : TxCtx σ) : Except ExitErr (TxCtx σ) :=
  match s.stack with
  | [] => Except.error ExitErr.nonContextOpen
  | frame :: rest =>
    if frame = false then Except.error ExitErr.nonContextOpen
    else
      let lib1 :=
        if s.lib.stage = TxStage.work then
          if exc then txAbortLib s.lib internalAbortErrno else txCommitLib s.lib
        else s.lib
      let r := txEnd lib1
      if r.1 ≠ 0 then
        if r.1 ≠ internalAbortErrno then Except.error (ExitErr.libError r.1)
        else Except.ok { lib := r.2, stack := rest, cache := clearTransactionCache s.cache }
      else
        if rest = [] then
          Except.ok { lib := r.2, stack := rest, cache := commitTransactionCache s.cache }
        else Except.ok { lib := r.2, stack := rest, cache := s.cache }

/-- A `TxCtx` at rest: no transaction in progress, committed cache maps
`cr` and `cp`, empty staged maps. -/
def restCtx {σ : Type} (p0 : σ) (cr cp : List (Nat × Nat)) : TxCtx σ :=
  { lib := { pmem := p0, base := none, depth := 0, stage := TxStage.idle, pendingErr := 0 },
    stack := [],
    cache := { res := cr, per := cp, transRes := [], transPer := [] } }

/-- The body of a scoped transaction, abstracted: a mutation `f` of the
persistent state (performed through snapshotting writes) and entries
`sr`, `sp` staged in the transaction caches. -/
def runBody {σ : Type} (f : σ → σ) (sr sp : List (Nat × Nat)) (s : TxCtx σ) : TxCtx σ :=
  { s with lib := { s.lib with pmem := f s.lib.pmem },
           cache := { s.cache with transRes := sr ++ s.cache.transRes,
                                   transPer := sp ++ s.cache.transPer } }

/-! ## Garbage collection of cycles (pool.py, gc and _deallocate)

Model of the cycle-reclaim phase of `PersistentObjectPool.gc` (pool.py
lines 909-923) together with the cascading deallocation it triggers
through `MemoryManager.decref`, `MemoryManager._deallocate` (pool.py
lines 570-599) and `PersistentList.clear` / `_deallocate` (list.py lines
178-204).  The heap maps each OID to the refcount and item slots of a
persistent list; recursion is bounded by explicit fuel, which every
theorem instantiates large enough for the scenario at hand.  The
`containers` argument is the set left after the trace phase, i.e. the
unreachable containers. -/

/-- A persistent list as the GC sees it: its refcount and its item
slots. -/
structure GObj where
  refcnt : Nat
  items : List Nat
  deriving DecidableEq, Repr

/-- GC-time mutable state: the heap of persistent lists and the
`_track_free` set (pool.py lines 598-599 and 911). -/
structure GcState where
  heap : Nat → Option GObj
  trackFree : List Nat

/-- Translation of `MemoryManager.incref` at the GC heap's granularity. -/
def gcIncref (s : GcState) (oid : Nat) : GcState :=
  if oid = 0 then s
  else
    match s.heap oid with
    | none => s
    | some obj => { s with heap := hupd s.heap oid (some { obj with refcnt := obj.refcnt + 1 }) }

/-- One iteration of the loop of `PersistentList.clear` (list.py lines
184-190) on the list at `oid`, parameterized by the decref to apply:
read slot `i`, skip it when null, otherwise null it and decref the old
OID. -/
def gcClearStep (dec : GcState → Nat → GcState) (oid : Nat) (s : GcState) (i : Nat) :
    GcState :=
  match s.heap oid with
  | none => s
  | some cur =>
    let it := cur.items.getD i 0
    if it = 0 then s
    else
      dec { s with heap := hupd s.heap oid (some { cur with items := cur.items.set i 0 }) } it

/-- The loop of `PersistentList.clear` over `range(self._size)`, with the
size read once at loop entry. -/
def gcClearWith (dec : GcState → Nat → GcState) (s : GcState) (oid : Nat) (n : Nat) :
    GcState :=
  (List.range n).foldl (gcClearStep dec oid) s

/-- Translation of `MemoryManager.decref` (pool.py lines 570-582) with
the cascade of `_deallocate` inlined: when the refcount would reach zero,
resurrect the list, run its `_deallocate` hook (which is `clear`), free
the allocation (removing it from the heap and purging it from the caches)
and record it in `_track_free` (pool.py line 599). -/
def gcDecref : Nat → GcState → Nat → GcState
  | 0, s, _ => s
  | fuel + 1, s, oid =>
    match s.heap oid with
    | none => s
    | some obj =>
      if obj.refcnt ≤ 1 then
        let s1 := gcClearWith (fun acc it => gcDecref fuel acc it) s oid obj.items.length
        { heap := hupd s1.heap oid none, trackFree := oid :: s1.trackFree }
      else { s with heap := hupd s.heap oid (some { obj with refcnt := obj.refcnt - 1 }) }

/-- Translation of `MemoryManager._deallocate` (pool.py lines 589-599) on
a persistent list, called directly by the GC: run `clear`, free the
allocation, and record the OID in `_track_free`. -/
def gcDealloc (fuel : Nat) (s : GcState) (oid : Nat) : GcState :=
  match s.heap oid with
  | none => s
  | some obj =>
    let s1 := gcClearWith (fun acc it => gcDecref fuel acc it) s oid obj.items.length
    { heap := hupd s1.heap oid none, trackFree := oid :: s1.trackFree }

/-- Translation of the cycle-reclaim phase of `PersistentObjectPool.gc`
(pool.py lines 909-923): reset `_track_free`, then for each remaining
container — unless an earlier cascade already freed it — incref it (so
the cascade cannot destroy the copy being cleared) and call
`_deallocate`; `collections-gced` is set to the size of the containers
set (line 923). -/
def gcCollectCycles (fuel : Nat) (s : GcState) (containers : List Nat) : GcState × Nat :=
  (containers.foldl
    (fun acc oid =>
      if oid ∈ acc.trackFree then acc
      else gcDealloc fuel (gcIncref acc oid) oid)
    { s with trackFree := [] },
   containers.length)

/-! ## Helper lemmas -/

theorem hupd_same {β : Type} (h : Nat → Option β) (k : Nat) (v : Option β) :
    hupd h k v k = v := by
  simp [hupd]

theorem hupd_ne {β : Type} (h : Nat → Option β) (k x : Nat) (v : Option β)
    (hx : x ≠ k) : hupd h k v x = h x := by
  simp [hupd, hx]

theorem gcDecref_succ (fuel : Nat) (s : GcState) (oid : Nat) :
    gcDecref (fuel + 1) s oid =
      (match s.heap oid with
      | none => s
      | some obj =>
        if obj.refcnt ≤ 1 then
          let s1 := gcClearWith (fun acc it => gcDecref fuel acc it) s oid obj.items.length
          { heap := hupd s1.heap oid none, trackFree := oid :: s1.trackFree }
        else { s with heap := hupd s.heap oid (some { obj with refcnt := obj.refcnt - 1 }) }) :=
  rfl

theorem range_one_eq : List.range 1 = [0] := by decide

theorem newAllocated_ge (n : Nat) : n ≤ newAllocated n := by
  unfold newAllocated
  dsimp only
  split_ifs <;> omega

theorem listResize_pres_inv (b : PListBody) (n : Nat) (h : b.inv) :
    ((listResize b n).1).inv := by
  unfold listResize
  split_ifs with hg
  · exact ⟨hg.1, h.2⟩
  · refine ⟨newAllocated_ge n, ?_⟩
    simp

/-! ## Claims -/

/-- C6: for every list resize from capacity `allocated` to length
`newsize`, if `allocated ≥ newsize` and `newsize ≥ allocated / 2` then no
reallocation of the items array occurs and only the size field changes;
otherwise a reallocation occurs and the new capacity equals
`(newsize >> 3) + (3 if newsize < 9 else 6) + newsize`, except that it
equals 0 when `newsize = 0`. -/
theorem resize_capacity_policy (b : PListBody) (newsize : Nat) :
    (b.allocated ≥ newsize ∧ newsize ≥ b.allocated / 2 →
      listResize b newsize = ({ b with size := newsize }, false)) ∧
    (¬(b.allocated ≥ newsize ∧ newsize ≥ b.allocated / 2) →
      (listResize b newsize).2 = true ∧
      (listResize b newsize).1.allocated =
        (if newsize = 0 then 0
         else (newsize >>> 3) + (if newsize < 9 then 3 else 6) + newsize)) := by
  have hsh : b.allocated >>> 1 = b.allocated / 2 := Nat.shiftRight_one b.allocated
  unfold listResize
  rw [hsh]
  constructor
  · intro h
    rw [if_pos h]
  · intro h
    rw [if_neg h]
    exact ⟨rfl, rfl⟩

/-- Witness for C6: a fast-path instance and a slow-path instance of the
capacity policy, at concrete inputs. -/
theorem resize_capacity_policy_w :
    listResize ⟨3, 4, false⟩ 3 = (⟨3, 4, false⟩, false) ∧
    ((listResize ⟨5, 4, false⟩ 9).2 = true ∧
     (listResize ⟨5, 4, false⟩ 9).1.allocated =
       (if (9:Nat) = 0 then 0
        else ((9:Nat) >>> 3) + (if (9:Nat) < 9 then 3 else 6) + 9)) :=
  ⟨(resize_capacity_policy ⟨3, 4, false⟩ 3).1 (by decide),
   (resize_capacity_policy ⟨5, 4, false⟩ 9).2 (by decide)⟩

/-- C7: `insert(i, v)` on a list of length n places v at the clamped
position — `max 0 (i+n)`, i.e. `(i+n).toNat`, when `i < 0`, and
`min i n` when `i ≥ 0` — shifting the suffix one slot to the right; and
the insertion sequence of scenario S3 starting from an empty list yields
the list ["z", "a", "b", "c", "y"]. -/
theorem insert_clamped_position (α : Type) (l : List α) (i : Int) (v : α) :
    (i < 0 → listInsert l i v =
      l.take (i + l.length).toNat ++ v :: l.drop (i + l.length).toNat) ∧
    (0 ≤ i → listInsert l i v =
      l.take (min i.toNat l.length) ++ v :: l.drop (min i.toNat l.length)) ∧
    s3List = ["z", "a", "b", "c", "y"] := by
  refine ⟨?_, ?_, by decide⟩
  · intro h
    have hp : (clampInsertIndex i l.length).toNat = (i + l.length).toNat := by
      unfold clampInsertIndex
      dsimp only
      split_ifs <;> omega
    unfold listInsert
    dsimp only
    rw [hp]
  · intro h
    have hp : (clampInsertIndex i l.length).toNat = min i.toNat l.length := by
      unfold clampInsertIndex
      dsimp only
      split_ifs <;> omega
    unfold listInsert
    dsimp only
    rw [hp]

/-- Witness for C7: inserting at index -10 into a 3-element list places
the value at position 0, and inserting at index 10 places it at
position 3. -/
theorem insert_clamped_position_w :
    listInsert [10, 20, 30] (-10) 7 =
      ([10, 20, 30].take ((-10:Int) + (3:Nat)).toNat ++
        7 :: [10, 20, 30].drop ((-10:Int) + (3:Nat)).toNat) ∧
    listInsert [10, 20, 30] 10 7 =
      ([10, 20, 30].take (min (10:Int).toNat 3) ++
        7 :: [10, 20, 30].drop (min (10:Int).toNat 3)) :=
  ⟨(insert_clamped_position Nat [10, 20, 30] (-10) 7).1 (by decide),
   (insert_clamped_position Nat [10, 20, 30] 10 7).2.1 (by decide)⟩

/-- C8: for a list of length n and index i, if `-n ≤ i < n` the access
returns the element at the normalized position (i counts from the end
when negative) and that position is in range; otherwise the access fails
with the index-out-of-range error carrying the adjusted index, and — the
access performing no write — the list is unchanged. -/
theorem getitem_normalizes (α : Type) (l : List α) (i : Int) :
    (-(l.length : Int) ≤ i → i < l.length →
      listGet l i =
        Except.ok (l.get? (if i < 0 then (i + l.length).toNat else i.toNat)) ∧
      (if i < 0 then (i + l.length).toNat else i.toNat) < l.length) ∧
    (i < -(l.length : Int) ∨ (l.length : Int) ≤ i →
      listGet l i = Except.error (if i < 0 then i + l.length else i)) := by
  constructor
  · intro h1 h2
    unfold listGet normalizeIndex
    by_cases hi : i < 0
    · rw [if_pos hi, if_neg (by omega), if_pos hi]
      exact ⟨rfl, by omega⟩
    · rw [if_neg hi, if_neg (by omega), if_neg hi]
      exact ⟨rfl, by omega⟩
  · intro h
    unfold listGet normalizeIndex
    by_cases hi : i < 0
    · rw [if_pos hi, if_pos (by omega)]
    · rw [if_neg hi, if_pos (by omega)]

/-- Witness for C8: on a 3-element list, index -1 reads position 2, and
index 3 is rejected. -/
theorem getitem_normalizes_w :
    (listGet [10, 20, 30] (-1) =
       Except.ok ([10, 20, 30].get?
         (if (-1:Int) < 0 then ((-1:Int) + (3:Nat)).toNat else (-1:Int).toNat)) ∧
     (if (-1:Int) < 0 then ((-1:Int) + (3:Nat)).toNat else (-1:Int).toNat) < 3) ∧
    listGet [10, 20, 30] 3 =
      Except.error (if (3:Int) < 0 then (3:Int) + (3:Nat) else 3) :=
  ⟨(getitem_normalizes Nat [10, 20, 30] (-1)).1 (by decide) (by decide),
   (getitem_normalizes Nat [10, 20, 30] 3).2 (Or.inr (by decide))⟩

/-- C9: every persistent-list operation (new, insert, set, del, append,
clear) preserves the list-body invariant `size ≤ allocated` and
`items = OID_NULL` iff `allocated = 0`; a fresh list establishes it. -/
theorem list_ops_preserve_inv :
    newListBody.inv ∧
    ∀ b : PListBody, b.inv →
      (insertBody b).inv ∧ (setBody b).inv ∧ (delBody b).inv ∧
      (appendBody b).inv ∧ (clearBody b).inv := by
  refine ⟨⟨Nat.le_refl 0, by simp [newListBody]⟩, ?_⟩
  intro b h
  refine ⟨listResize_pres_inv _ _ h, h, listResize_pres_inv _ _ h,
          listResize_pres_inv _ _ h, ?_⟩
  unfold clearBody
  split_ifs
  · exact h
  · exact listResize_pres_inv _ _ h

/-- Witness for C9: the operations preserve the invariant on the concrete
body with size 1 and capacity 2. -/
theorem list_ops_preserve_inv_w :
    (insertBody ⟨1, 2, false⟩).inv ∧ (setBody ⟨1, 2, false⟩).inv ∧
    (delBody ⟨1, 2, false⟩).inv ∧ (appendBody ⟨1, 2, false⟩).inv ∧
    (clearBody ⟨1, 2, false⟩).inv :=
  list_ops_preserve_inv.2 ⟨1, 2, false⟩ ⟨by decide, by decide⟩

/-- C10: at the allocation interface, size zero is an identity on
OID_NULL: `malloc(0)` returns OID_NULL leaving the allocator untouched,
and `realloc(oid, 0)` frees oid and returns OID_NULL; for nonzero sizes
both return a non-null OID or raise. -/
theorem alloc_size_zero_identity :
    (∀ (s : AllocState) (ok : Bool), mmMalloc s ok 0 = Except.ok (s, 0)) ∧
    (∀ (s : AllocState) (ok : Bool) (oid : Nat),
        mmRealloc s ok oid 0 = Except.ok (allocFree s oid, 0)) ∧
    (∀ (s : AllocState) (ok : Bool) (size : Nat), size ≠ 0 →
        mmMalloc s ok size = Except.error () ∨
        ∃ s2 oid2, mmMalloc s ok size = Except.ok (s2, oid2) ∧ oid2 ≠ 0) ∧
    (∀ (s : AllocState) (ok : Bool) (oid size : Nat), size ≠ 0 →
        mmRealloc s ok oid size = Except.error () ∨
        ∃ s2 oid2, mmRealloc s ok oid size = Except.ok (s2, oid2) ∧ oid2 ≠ 0) := by
  refine ⟨fun s ok => rfl, fun s ok oid => rfl, ?_, ?_⟩
  · intro s ok size h
    cases ok
    · exact Or.inl (by simp [mmMalloc, txZalloc, h])
    · exact Or.inr ⟨{ next := s.next + 1, live := (s.next + 1) :: s.live },
        s.next + 1, by simp [mmMalloc, txZalloc, h], Nat.succ_ne_zero _⟩
  · intro s ok oid size h
    cases ok
    · exact Or.inl (by simp [mmRealloc, txZrealloc, h])
    · exact Or.inr ⟨{ next := s.next + 1, live := (s.next + 1) :: s.live.erase oid },
        s.next + 1, by simp [mmRealloc, txZrealloc, h], Nat.succ_ne_zero _⟩

/-- Witness for C10: a successful nonzero malloc and realloc yield
non-null OIDs. -/
theorem alloc_size_zero_identity_w :
    (mmMalloc ⟨0, []⟩ true 8 = Except.error () ∨
     ∃ s2 oid2, mmMalloc ⟨0, []⟩ true 8 = Except.ok (s2, oid2) ∧ oid2 ≠ 0) ∧
    (mmRealloc ⟨1, [1]⟩ true 1 16 = Except.error () ∨
     ∃ s2 oid2, mmRealloc ⟨1, [1]⟩ true 1 16 = Except.ok (s2, oid2) ∧ oid2 ≠ 0) :=
  ⟨alloc_size_zero_identity.2.2.1 ⟨0, []⟩ true 8 (by decide),
   alloc_size_zero_identity.2.2.2 ⟨1, [1]⟩ true 1 16 (by decide)⟩

/-- C1 (code bug): the mutation order of `__setitem__` and of the root
setter — persist, `xdecref` old slot, write, `incref` new — does NOT
protect a value shared between the old and the new contents of the slot.
At the failing input (the slot holds OID 1 at refcount 1, and
`persist(v)` returns that same OID 1), `set(0, v)` runs the `xdecref`
first, the refcount reaches zero and `_deallocate` frees the allocation;
the subsequent write and `incref` leave the slot pointing at freed
memory.  The same happens for `pool.root = v`.  This theorem evaluates
the code at that input: the allocation is gone (`heap 1 = none`) while
the slot still stores OID 1. -/
theorem setitem_shared_value_freed :
    ((setItem ⟨c1Heap, [1]⟩ 0 1).heap 1 = none ∧
     (setItem ⟨c1Heap, [1]⟩ 0 1).slots = [1]) ∧
    ((rootSet ⟨c1Heap, 1⟩ 1).heap 1 = none ∧
     (rootSet ⟨c1Heap, 1⟩ 1).rootObj = 1) :=
  ⟨⟨rfl, rfl⟩, ⟨rfl, rfl⟩⟩

/-- C2 (counterexample): opening an existing pool (flag w) whose root
record has `OID_NULL` in the type-table slot does NOT fail: the
constructor proceeds and creates a fresh type table (here allocated at
OID 5). -/
theorem open_null_slot_does_not_fail :
    poolInit OpenFlag.wflag true 0 5 = Except.ok ⟨5, true⟩ ∧
    (poolInit OpenFlag.wflag true 0 5).isOk = true :=
  ⟨rfl, rfl⟩

/-- C2 (amended): when an existing pool file is opened (flag w, or c on
an existing file) and the persistent root record's type-table slot is
`OID_NULL`, the open operation does not fail: it silently creates a
fresh type table inside a transaction and stores it in the root record,
exactly as on fresh pool creation. -/
theorem open_null_slot_initializes (fresh : Nat) :
    poolInit OpenFlag.wflag true 0 fresh = Except.ok ⟨fresh, true⟩ ∧
    poolInit OpenFlag.cflag true 0 fresh = Except.ok ⟨fresh, true⟩ :=
  ⟨rfl, rfl⟩

/-- C3 (code bug): for an OID whose header's type code is neither 0 nor 1
and whose class string has no registered `_resurrect_*` routine,
`resurrect` is supposed to look up the class object and construct an
instance from the manager and the OID, but line 494 of pool.py calls
`find_class_from_string`, a name that is bound nowhere (the helper is
`_find_class_from_string`), so the call raises `NameError` instead.
Evaluated at the failing input: type code 2 resolving to the class string
of a user persistent class; the spec-described dispatch
(`resurrectSpec`) constructs the instance instead. -/
theorem resurrect_user_class_raises :
    resurrect ["nvm.pmemobj.list:PersistentList", "builtins:str",
               "mygame:Player"] 2 7 =
      Except.error ResErr.nameErr ∧
    resurrectSpec ["nvm.pmemobj.list:PersistentList", "builtins:str",
                   "mygame:Player"] 2 7 =
      Except.ok (ResObj.userInstance ("mygame:Player") 7) :=
  ⟨rfl, rfl⟩

/-- C4: for a scoped transaction context whose outermost frame is
scope-owned — starting from a quiescent pool with persistent state `p0`
and committed cache maps `cr`, `cp`, entering the scope, mutating the
persistent state by `f` (through snapshotting writes) and staging the
cache entries `sr`, `sp` — a normal exit commits: the mutation survives
and the staged entries are merged into the committed maps; an exit on an
exception aborts: the staged entries are discarded and the persistent
state after the scope equals `p0`, its state before the scope. -/
theorem scoped_exit_commit_abort (σ : Type) (p0 : σ) (f : σ → σ)
    (cr cp sr sp : List (Nat × Nat)) :
    txExit false (runBody f sr sp (txEnter (restCtx p0 cr cp))) =
      Except.ok { lib := { pmem := f p0, base := none, depth := 0,
                           stage := TxStage.idle, pendingErr := 0 },
                  stack := [],
                  cache := { res := sr ++ cr, per := sp ++ cp,
                             transRes := [], transPer := [] } } ∧
    txExit true (runBody f sr sp (txEnter (restCtx p0 cr cp))) =
      Except.ok { lib := { pmem := p0, base := none, depth := 0,
                           stage := TxStage.idle, pendingErr := 0 },
                  stack := [],
                  cache := { res := cr, per := cp,
                             transRes := [], transPer := [] } } := by
  constructor <;>
    simp [txExit, runBody, txEnter, restCtx, txBegin, txCommitLib, txAbortLib,
          txEnd, commitTransactionCache, clearTransactionCache, internalAbortErrno]

/-- C5: for a pool whose object graph contains a pair of lists that
reference each other (each with refcount 1, from the other's slot) but
are no longer reachable from the type registry or the user root — so
that the trace phase leaves exactly the pair in the containers set — the
cycle-reclaim phase of gc() deallocates both lists and reports a
`collections-gced` count of at least 2.  The rest of the heap `h0` is
arbitrary. -/
theorem gc_reclaims_cycle_pair (h0 : Nat → Option GObj) (a b : Nat)
    (ha : a ≠ 0) (hb : b ≠ 0) (hab : a ≠ b)
    (hha : h0 a = some ⟨1, [b]⟩) (hhb : h0 b = some ⟨1, [a]⟩) :
    (gcCollectCycles 4 ⟨h0, []⟩ [a, b]).1.heap a = none ∧
    (gcCollectCycles 4 ⟨h0, []⟩ [a, b]).1.heap b = none ∧
    2 ≤ (gcCollectCycles 4 ⟨h0, []⟩ [a, b]).2 := by
  have hba : b ≠ a := Ne.symm hab
  have f4 : ∀ (H : Nat → Option GObj) (tf : List Nat), H a = some ⟨2, [0]⟩ →
      gcDecref 3 ⟨H, tf⟩ a = ⟨hupd H a (some ⟨1, [0]⟩), tf⟩ := by
    intro H tf hH
    rw [show (3:Nat) = 2 + 1 from rfl, gcDecref_succ]
    dsimp only
    rw [hH]
    simp
  have f3 : ∀ (H : Nat → Option GObj) (tf : List Nat),
      H b = some ⟨1, [a]⟩ → H a = some ⟨2, [0]⟩ →
      gcDecref 4 ⟨H, tf⟩ b =
        ⟨hupd (hupd (hupd H b (some ⟨1, [0]⟩)) a (some ⟨1, [0]⟩)) b none, b :: tf⟩ := by
    intro H tf hHb hHa
    have step : gcClearStep (fun acc it => gcDecref 3 acc it) b ⟨H, tf⟩ 0 =
        ⟨hupd (hupd H b (some ⟨1, [0]⟩)) a (some ⟨1, [0]⟩), tf⟩ := by
      simp only [gcClearStep]
      rw [hHb]
      dsimp only
      simp only [List.getD_cons_zero, List.set_cons_zero, ha, if_false]
      rw [f4 _ _ (by rw [hupd_ne _ _ _ _ hab, hHa])]
    rw [show (4:Nat) = 3 + 1 from rfl, gcDecref_succ]
    dsimp only
    rw [hHb]
    dsimp only [List.length_cons, List.length_nil]
    rw [if_pos (Nat.le_refl 1)]
    simp only [gcClearWith, Nat.zero_add, range_one_eq, List.foldl_cons, List.foldl_nil]
    rw [step]
  have f2 : ∀ (H : Nat → Option GObj), H a = some ⟨2, [b]⟩ → H b = some ⟨1, [a]⟩ →
      gcDealloc 4 ⟨H, []⟩ a =
        ⟨hupd (hupd (hupd (hupd (hupd H a (some ⟨2, [0]⟩)) b (some ⟨1, [0]⟩))
                  a (some ⟨1, [0]⟩)) b none) a none, [a, b]⟩ := by
    intro H hHa hHb
    have step : gcClearStep (fun acc it => gcDecref 4 acc it) a ⟨H, []⟩ 0 =
        ⟨hupd (hupd (hupd (hupd H a (some ⟨2, [0]⟩)) b (some ⟨1, [0]⟩))
            a (some ⟨1, [0]⟩)) b none, [b]⟩ := by
      simp only [gcClearStep]
      rw [hHa]
      dsimp only
      simp only [List.getD_cons_zero, List.set_cons_zero, hb, if_false]
      rw [f3 _ _ (by rw [hupd_ne _ _ _ _ hba, hHb]) (hupd_same _ _ _)]
    simp only [gcDealloc]
    rw [hHa]
    dsimp only [List.length_cons, List.length_nil]
    simp only [gcClearWith, Nat.zero_add, range_one_eq, List.foldl_cons, List.foldl_nil]
    rw [step]
  have fI : gcIncref ⟨h0, []⟩ a = ⟨hupd h0 a (some ⟨2, [b]⟩), []⟩ := by
    simp [gcIncref, ha, hha]
  have main : (gcCollectCycles 4 ⟨h0, []⟩ [a, b]).1 =
      ⟨hupd (hupd (hupd (hupd (hupd (hupd h0 a (some ⟨2, [b]⟩)) a (some ⟨2, [0]⟩))
          b (some ⟨1, [0]⟩)) a (some ⟨1, [0]⟩)) b none) a none, [a, b]⟩ := by
    simp only [gcCollectCycles, List.foldl_cons, List.foldl_nil, List.not_mem_nil,
               if_false]
    rw [fI]
    rw [f2 _ (hupd_same _ _ _) (by rw [hupd_ne _ _ _ _ hba, hhb])]
    simp [List.mem_cons]
  refine ⟨?_, ?_, ?_⟩
  · rw [main]
    exact hupd_same _ _ _
  · rw [main]
    dsimp only
    rw [hupd_ne _ _ _ _ hba]
    exact hupd_same _ _ _
  · simp [gcCollectCycles]

/-- Witness for C5: the mutual pair at OIDs 1 and 2 on an otherwise empty
heap is reclaimed. -/
theorem gc_reclaims_cycle_pair_w :
    (gcCollectCycles 4
      ⟨fun x => if x = 1 then some ⟨1, [2]⟩ else if x = 2 then some ⟨1, [1]⟩ else none,
       []⟩ [1, 2]).1.heap 1 = none ∧
    (gcCollectCycles 4
      ⟨fun x => if x = 1 then some ⟨1, [2]⟩ else if x = 2 then some ⟨1, [1]⟩ else none,
       []⟩ [1, 2]).1.heap 2 = none ∧
    2 ≤ (gcCollectCycles 4
      ⟨fun x => if x = 1 then some ⟨1, [2]⟩ else if x = 2 then some ⟨1, [1]⟩ else none,
       []⟩ [1, 2]).2 :=
  gc_reclaims_cycle_pair
    (fun x => if x = 1 then some ⟨1, [2]⟩ else if x = 2 then some ⟨1, [1]⟩ else none)
    1 2 (by decide) (by decide) (by decide) rfl rfl

end Pmemobj
